import Mathlib

/-!
Verification of the pivot-table demonstration repository.

The repository holds three Python scripts (approach1_xlsxwriter.py,
approach2_openpyxl.py, approach3_win32com.py).  Each builds the same fixed
100-row sample dataset, computes two pivoted views of it with pandas
pivot_table (approaches 1 and 2) or Excel PivotTable automation calls
(approach 3), and writes raw data, views and charts to a spreadsheet.

This file gives a shallow embedding of that data model and of the operations
the scripts perform: the sample-data generator, the two pandas pivots, the
grid layout pandas to_excel produces for each sheet, the xlsxwriter chart
range references, the win32com data-field configuration, and the
availability gate and try/except/finally control flow of the win32com
script.  Dates are modelled as Excel day serials (2024-01-01 = 45292).
-/

set_option maxHeartbeats 1000000
set_option maxRecDepth 4000

/-- A spreadsheet cell value: blank, string, integer, rational or a date
serial.  Distinct constructors keep the written types apart, matching how
the spreadsheet stores text, numbers and dates. -/
inductive Cell where
  | blank
  | s (v : String)
  | i (v : Int)
  | q (v : ℚ)
  | d (v : Nat)
deriving DecidableEq, Repr

/-- One record of the tabular record set: fields Date, Region, Product,
Sales, Quantity, exactly the five columns every script builds. -/
structure Row where
  date : Nat
  region : String
  product : String
  sales : Int
  quantity : Int
deriving DecidableEq, Repr

instance : Inhabited Row := ⟨⟨0, "", "", 0, 0⟩⟩

/-- Excel day serial of 2024-01-01, the fixed start of
pd.date_range with periods=100 and daily frequency. -/
def sampleStartDate : Nat := 45292

/-- Column Date of the sample data: 100 consecutive daily dates. -/
def dateCol : List Nat := (List.range 100).map (fun i => sampleStartDate + i)

/-- The four fixed region values, in source order. -/
def regionCycle : List String := ["North", "South", "East", "West"]

/-- The four fixed product values, in source order. -/
def productCycle : List String := ["Product A", "Product B", "Product C", "Product D"]

/-- Column Region: the region list repeated 25 times. -/
def regionCol : List String := (List.replicate 25 regionCycle).flatten

/-- Column Product: the product list repeated 25 times. -/
def productCol : List String := (List.replicate 25 productCycle).flatten

/-- The 8-value sales pattern repeated in the Sales column. -/
def salesCycle : List Int := [100, 150, 200, 175, 120, 180, 210, 190]

/-- Column Sales: 12 copies of the 8-value pattern plus the explicit
4-value tail, exactly as the source writes it. -/
def salesCol : List Int := (List.replicate 12 salesCycle).flatten ++ [100, 150, 200, 175]

/-- The 8-value quantity pattern repeated in the Quantity column. -/
def quantityCycle : List Int := [10, 15, 20, 18, 12, 16, 22, 19]

/-- Column Quantity: 12 copies of the 8-value pattern plus the explicit
4-value tail, exactly as the source writes it. -/
def quantityCol : List Int := (List.replicate 12 quantityCycle).flatten ++ [10, 15, 20, 18]

/-- create_sample_data, identical in all three scripts: the DataFrame built
from the five equal-length columns, row i holding the i-th entry of each.
It takes no input, so determinism is inherent in the embedding. -/
def create_sample_data : List Row :=
  (dateCol.zip (regionCol.zip (productCol.zip (salesCol.zip quantityCol)))).map
    (fun x => ⟨x.1, x.2.1, x.2.2.1, x.2.2.2.1, x.2.2.2.2⟩)

/-- Lexicographic strict order on code-point lists, the order pandas uses
when it sorts string group labels ascending. -/
def lexLtNat : List Nat → List Nat → Bool
  | [], [] => false
  | [], _ :: _ => true
  | _ :: _, [] => false
  | x :: xs, y :: ys => if x < y then true else if y < x then false else lexLtNat xs ys

/-- Strict ascending comparison of strings by code points. -/
def strLtB (a b : String) : Bool :=
  lexLtNat (a.data.map Char.toNat) (b.data.map Char.toNat)

/-- Insert into an ascending list. -/
def insertAsc (a : String) : List String → List String
  | [] => [a]
  | b :: l => if strLtB a b then a :: b :: l else b :: insertAsc a l

/-- Insertion sort, ascending by code points. -/
def sortAsc : List String → List String
  | [] => []
  | a :: l => insertAsc a (sortAsc l)

/-- Distinct values in order of first occurrence. -/
def distinctVals (l : List String) : List String :=
  l.foldl (fun acc x => if acc.contains x then acc else acc ++ [x]) []

/-- Sorted unique values of a string list: pandas pivot_table uses the
ascending-sorted distinct values of a grouping column as the axis labels. -/
def uniqueSorted (l : List String) : List String :=
  sortAsc (distinctVals l)

/-- Row labels of pivot1 (pd.pivot_table index of Region). -/
def pivot1Index (rs : List Row) : List String := uniqueSorted (rs.map (fun r => r.region))

/-- Column labels of pivot1 (pd.pivot_table columns of Product). -/
def pivot1Columns (rs : List Row) : List String := uniqueSorted (rs.map (fun r => r.product))

/-- One cell of pivot1: aggfunc sum of Sales over the rows of one
region-product group; fill_value=0 is the empty sum. -/
def pivot1Cell (rs : List Row) (reg p : String) : Int :=
  ((rs.filter (fun r => r.region == reg && r.product == p)).map (fun r => r.sales)).sum

/-- The full 4x4 value grid of pivot1, rows in index order and columns in
column-label order. -/
def pivot1Grid (rs : List Row) : List (List Int) :=
  (pivot1Index rs).map (fun reg => (pivot1Columns rs).map (fun p => pivot1Cell rs reg p))

/-- Row labels of pivot2 (pd.pivot_table index of Product). -/
def pivot2Index (rs : List Row) : List String := uniqueSorted (rs.map (fun r => r.product))

/-- The three aggregations of pivot2, in the order of the aggfunc list
of approaches 1 and 2. -/
inductive Agg where
  | sum
  | mean
  | cnt
deriving DecidableEq, Repr

/-- The aggfunc list passed to pd.pivot_table for pivot2 in
approach1_xlsxwriter.py and approach2_openpyxl.py. -/
def pivot2Aggs : List Agg := [Agg.sum, Agg.mean, Agg.cnt]

/-- Quantities of one product group. -/
def groupQuantities (rs : List Row) (p : String) : List Int :=
  (rs.filter (fun r => r.product == p)).map (fun r => r.quantity)

/-- The sum column of pivot2. -/
def pivot2SumQ (rs : List Row) (p : String) : Int := (groupQuantities rs p).sum

/-- The count column of pivot2. -/
def pivot2CountQ (rs : List Row) (p : String) : Nat := (groupQuantities rs p).length

/-- The mean column of pivot2, an exact rational. -/
def pivot2MeanQ (rs : List Row) (p : String) : ℚ :=
  (pivot2SumQ rs p : ℚ) / (pivot2CountQ rs p : ℚ)

/-! ## Sheet layouts written by pandas

df.to_excel with index=False writes one header row of column names followed
by one row per record (the Raw Data sheet of approach 1; approach 2 writes
the same rows through dataframe_to_rows with index=False, header=True).

pivot1.to_excel (approach 1) writes a frame with flat columns and a row
index named Region: pandas emits a single header row carrying the index
name in its first cell followed by the column labels, then the data rows.

pivot2.to_excel writes a frame with a two-level column index
(aggregation x value column) and row index named Product: for a
multi-level column index pandas emits one header row per column level,
then an extra row carrying the index name, then the data rows.
-/

/-- Header row of the Raw Data sheet: the five column names. -/
def rawDataHeader : List Cell :=
  [Cell.s "Date", Cell.s "Region", Cell.s "Product", Cell.s "Sales", Cell.s "Quantity"]

/-- One record serialized to one sheet row. -/
def rowToCells (r : Row) : List Cell :=
  [Cell.d r.date, Cell.s r.region, Cell.s r.product, Cell.i r.sales, Cell.i r.quantity]

/-- The Raw Data sheet of approach1_xlsxwriter.py:
df.to_excel with sheet name Raw Data and index=False. -/
def rawDataSheetXlsx (rs : List Row) : List (List Cell) :=
  rawDataHeader :: rs.map rowToCells

/-- The Raw Data sheet of approach2_openpyxl.py: ws_data.append of each row
of dataframe_to_rows(df, index=False, header=True). -/
def rawDataSheetOpenpyxl (rs : List Row) : List (List Cell) :=
  rawDataHeader :: rs.map rowToCells

/-- One sheet row parsed back into a record, the typed reading
pd.read_excel performs on a data row of the Raw Data sheet. -/
def cellsToRow : List Cell → Option Row
  | [Cell.d dv, Cell.s rg, Cell.s p, Cell.i sv, Cell.i qv] => some ⟨dv, rg, p, sv, qv⟩
  | _ => none

/-- Parse all data rows; fails if any row does not parse. -/
def parseRows : List (List Cell) → Option (List Row)
  | [] => some []
  | r :: rest =>
    match cellsToRow r, parseRows rest with
    | some row, some rows => some (row :: rows)
    | _, _ => none

/-- pd.read_excel on a Raw Data sheet: the first row gives the column
names, the remaining rows the records. -/
def readRawData : List (List Cell) → Option (List Row)
  | [] => none
  | h :: body => if h = rawDataHeader then parseRows body else none

/-- The sheet pivot1.to_excel writes: one header row holding the index
name Region and the column labels, then one data row per region in index
order starting at row 1. -/
def pivot1Sheet (rs : List Row) : List (List Cell) :=
  (Cell.s "Region" :: (pivot1Columns rs).map Cell.s)
  :: (pivot1Index rs).map
      (fun reg => Cell.s reg :: (pivot1Columns rs).map (fun p => Cell.i (pivot1Cell rs reg p)))

/-- The sheet pivot2.to_excel writes: two column-level header rows
(aggregation names, then the value column name Quantity), the index-name
row, then one data row per product in index order. -/
def pivot2Sheet (rs : List Row) : List (List Cell) :=
  [Cell.blank, Cell.s "sum", Cell.s "mean", Cell.s "count"]
  :: [Cell.blank, Cell.s "Quantity", Cell.s "Quantity", Cell.s "Quantity"]
  :: [Cell.s "Product", Cell.blank, Cell.blank, Cell.blank]
  :: (pivot2Index rs).map
      (fun p => [Cell.s p, Cell.i (pivot2SumQ rs p), Cell.q (pivot2MeanQ rs p),
                 Cell.i (pivot2CountQ rs p)])

/-! ## Chart range references of approach1_xlsxwriter.py

xlsxwriter range lists are [sheet, first_row, first_col, last_row,
last_col] with zero-based coordinates. -/

/-- A rectangular zero-based cell range. -/
structure RangeRef where
  firstRow : Nat
  firstCol : Nat
  lastRow : Nat
  lastCol : Nat
deriving DecidableEq, Repr

/-- chart1 series categories: rows 1..num_regions of column 0 of the
Pivot - Sales by Region sheet. -/
def chart1CategoriesRange (num_regions : Nat) : RangeRef :=
  ⟨1, 0, num_regions, 0⟩

/-- chart1 series values for product column col: rows 1..num_regions of
column col+1. -/
def chart1ValuesRange (num_regions col : Nat) : RangeRef :=
  ⟨1, col + 1, num_regions, col + 1⟩

/-- chart2 (and chart3) categories: rows 1..num_products2 of column 0 of
the Pivot - Product Stats sheet. -/
def chart2CategoriesRange (num_products2 : Nat) : RangeRef :=
  ⟨1, 0, num_products2, 0⟩

/-- chart2 (and chart3) values: rows 1..num_products2 of column 1. -/
def chart2ValuesRange (num_products2 : Nat) : RangeRef :=
  ⟨1, 1, num_products2, 1⟩

/-- The cell a sheet holds at zero-based row r, column c (blank outside the
written area). -/
def cellAt (sheet : List (List Cell)) (r c : Nat) : Cell :=
  (sheet.getD r []).getD c Cell.blank

/-- The cells a single-column range covers, top to bottom. -/
def rangeColumnCells (sheet : List (List Cell)) (rg : RangeRef) : List Cell :=
  (List.range (rg.lastRow + 1 - rg.firstRow)).map
    (fun i => cellAt sheet (rg.firstRow + i) rg.firstCol)

/-- The data cells of View A for one product column, in row-index order:
what a value series should plot. -/
def viewAColumnDataCells (rs : List Row) (p : String) : List Cell :=
  (pivot1Index rs).map (fun reg => Cell.i (pivot1Cell rs reg p))

/-- The row labels of View A: what a category range should cover. -/
def viewARowLabelCells (rs : List Row) : List Cell :=
  (pivot1Index rs).map Cell.s

/-- The row labels of View B. -/
def viewBRowLabelCells (rs : List Row) : List Cell :=
  (pivot2Index rs).map Cell.s

/-! ## The win32com script (approach3_win32com.py) -/

/-- Excel consolidation-function code xlSum. -/
def xlSum : Int := -4157

/-- Excel consolidation-function code xlAverage. -/
def xlAverage : Int := -4106

/-- Excel consolidation-function code xlCount. -/
def xlCount : Int := -4112

/-- The AddDataField calls issued for the second PivotTable
(ProductStats), in source order: caption and consolidation code. -/
def productStatsDataFields : List (String × Int) :=
  [("Sum of Quantity", xlSum), ("Average Quantity", xlAverage)]

/-- The aggregation a consolidation code denotes. -/
def aggOfXlCode (code : Int) : Option Agg :=
  if code = xlSum then some Agg.sum
  else if code = xlAverage then some Agg.mean
  else if code = xlCount then some Agg.cnt
  else none

/-- The aggregations the ProductStats PivotTable carries. -/
def productStatsAggs : List Agg :=
  productStatsDataFields.filterMap (fun f => aggOfXlCode f.2)

/-- Semantics of the ProductStats data field with code xlSum: sum of
Quantity over the rows of one product group (row field Product). -/
def excelSumOfQuantity (rs : List Row) (p : String) : Int :=
  ((rs.filter (fun r => r.product == p)).map (fun r => r.quantity)).sum

/-- Semantics of the ProductStats data field with code xlAverage. -/
def excelAverageOfQuantity (rs : List Row) (p : String) : ℚ :=
  (excelSumOfQuantity rs p : ℚ) /
    (((rs.filter (fun r => r.product == p)).length : Nat) : ℚ)

/-- Observable events of one run of the win32com functions. -/
inductive Ev where
  | tempFileWritten
  | step (name : String)
  | log (msg : String)
  | quit
  | tempFileRemoved
  | propagateError
  | ret
deriving DecidableEq, Repr

/-- Result of one run: the event trace, whether the function terminated by
raising, and whether the temporary data file still exists at exit. -/
structure RunResult where
  events : List Ev
  raised : Bool
  tempExists : Bool
deriving DecidableEq, Repr

/-- The automation calls inside the try block of
create_true_pivot_with_win32com, in source order. -/
def automationSteps : List String :=
  ["Workbooks.Open", "get data_range", "Worksheets.Add pivot1",
   "PivotCaches.Create 1", "CreatePivotTable SalesByRegion",
   "set Region row field", "set Product column field",
   "AddDataField Sum of Sales", "set TableStyle2 pivot1",
   "AddChart2 column", "position chart1", "Worksheets.Add pivot2",
   "PivotCaches.Create 2", "CreatePivotTable ProductStats",
   "set Product row field", "AddDataField Sum of Quantity",
   "AddDataField Average Quantity", "set TableStyle2 pivot2",
   "AddChart2 pie", "position chart2", "set pie data labels",
   "Worksheets.Add Summary", "write summary cells", "remove old output",
   "SaveAs", "Close"]

/-- The console message printed by the except clause. -/
def automationErrorMsg : String := "ERROR"

/-- The try/except/finally of create_true_pivot_with_win32com once the
automation phase is reached (the temp file has been written and Excel
dispatched).  failAt = some k means the k-th automation call raises;
quitRaises means the excel.Quit() call in the finally block raises.
Python semantics: the except clause prints and re-raises; the finally
clause then runs excel.Quit() and, only if that returns, removes the temp
file when it exists; an exception from the finally clause replaces the
pending one; a pending exception leaves the function only after the
finally clause finishes. -/
def runAutomationPhase (failAt : Option Nat) (quitRaises : Bool) : RunResult :=
  let tryFails : Bool :=
    match failAt with
    | some k => decide (k < automationSteps.length)
    | none => false
  let executed : List String :=
    match failAt with
    | some k => automationSteps.take k
    | none => automationSteps
  let tryEvents : List Ev := executed.map Ev.step
  let exceptEvents : List Ev := if tryFails then [Ev.log automationErrorMsg] else []
  let cleanupEvents : List Ev :=
    if quitRaises then [Ev.quit] else [Ev.quit, Ev.tempFileRemoved]
  let raised : Bool := tryFails || quitRaises
  ⟨Ev.tempFileWritten :: tryEvents ++ exceptEvents ++ cleanupEvents
     ++ (if raised then [Ev.propagateError] else [Ev.ret]),
   raised, quitRaises⟩

/-- The automation calls inside the try block of
add_pivot_to_existing_file, in source order. -/
def addPivotSteps : List String :=
  ["Workbooks.Open", "get data_range", "Worksheets.Add",
   "PivotCaches.Create", "CreatePivotTable NewPivot", "collect fields",
   "set row field", "set data field", "SaveAs", "Close"]

/-- The try/except/finally of add_pivot_to_existing_file once the
automation phase is reached; its finally block only quits Excel (there is
no temporary file). -/
def runAddPivotPhase (failAt : Option Nat) (quitRaises : Bool) : RunResult :=
  let tryFails : Bool :=
    match failAt with
    | some k => decide (k < addPivotSteps.length)
    | none => false
  let executed : List String :=
    match failAt with
    | some k => addPivotSteps.take k
    | none => addPivotSteps
  let tryEvents : List Ev := executed.map Ev.step
  let exceptEvents : List Ev := if tryFails then [Ev.log automationErrorMsg] else []
  let raised : Bool := tryFails || quitRaises
  ⟨tryEvents ++ exceptEvents ++ [Ev.quit]
     ++ (if raised then [Ev.propagateError] else [Ev.ret]),
   raised, false⟩

/-- What a win32com entry point does at its availability gate: either the
printed early return (no file, no exception), or a full run. -/
inductive GateOutcome where
  | earlyReturn (msg : String)
  | ran (res : RunResult)
deriving DecidableEq, Repr

/-- The availability-gate message both win32com entry points print. -/
def availabilityError : String :=
  "ERROR: This function requires pywin32 and Excel to be installed."

/-- create_true_pivot_with_win32com: if the module-level flag
WIN32COM_AVAILABLE is false, print the message and return; otherwise run
the data preparation and automation phase. -/
def create_true_pivot_with_win32com (available : Bool) (failAt : Option Nat)
    (quitRaises : Bool) : GateOutcome :=
  if available then GateOutcome.ran (runAutomationPhase failAt quitRaises)
  else GateOutcome.earlyReturn availabilityError

/-- add_pivot_to_existing_file: same availability gate, then its own
automation phase. -/
def add_pivot_to_existing_file (available : Bool) (failAt : Option Nat)
    (quitRaises : Bool) : GateOutcome :=
  if available then GateOutcome.ran (runAddPivotPhase failAt quitRaises)
  else GateOutcome.earlyReturn availabilityError

/-- Whether an outcome wrote the output file (the SaveAs call ran). -/
def wroteOutput : GateOutcome → Bool
  | GateOutcome.earlyReturn _ => false
  | GateOutcome.ran res => res.events.contains (Ev.step "SaveAs")

/-- Whether an outcome terminated by raising an exception. -/
def raisedOut : GateOutcome → Bool
  | GateOutcome.earlyReturn _ => false
  | GateOutcome.ran res => res.raised

/-- The region-product pairs that co-occur in the sample data: the two
4-value cycles run in lockstep, so position i mod 4 fixes both. -/
def lockstepPairs : List (String × String) :=
  [("North", "Product A"), ("South", "Product B"),
   ("East", "Product C"), ("West", "Product D")]

/-- Look up a View A cell on the written sheet by its region row label and
product column label: data rows start below the single header row and data
columns right of the index column. -/
def lookupPivot1 (rs : List Row) (reg p : String) : Cell :=
  cellAt (pivot1Sheet rs) (1 + (pivot1Index rs).indexOf reg)
    (1 + (pivot1Columns rs).indexOf p)

/-- The data cells of the sum column of View B, in row-index order. -/
def viewBSumDataCells (rs : List Row) : List Cell :=
  (pivot2Index rs).map (fun p => Cell.i (pivot2SumQ rs p))

/-! ## Claim theorems -/

/-- C1: for the fixed 100-row sample dataset, the cell of pivoted View A at
row region North, column product Product A equals the sum of the Sales
field over exactly the rows whose Region is North and whose Product is
Product A (both are 2740). -/
theorem viewA_north_productA_cell_c1 :
    lookupPivot1 create_sample_data "North" "Product A" = Cell.i 2740 ∧
    ((create_sample_data.filter
        (fun r => r.region == "North" && r.product == "Product A")).map
      (fun r => r.sales)).sum = 2740 := by
  constructor <;> decide

/-- C2: on the sample dataset View A has exactly 4 row categories and 4
column categories, the written sheet holds all 16 region-product cells
(4 data rows of 1 label plus 4 values), and any region-product combination
with no matching record holds the fill value 0. -/
theorem viewA_shape_c2 :
    (pivot1Index create_sample_data).length = 4 ∧
    (pivot1Columns create_sample_data).length = 4 ∧
    ((pivot1Sheet create_sample_data).drop 1).length = 4 ∧
    (((pivot1Sheet create_sample_data).drop 1).all (fun r => r.length == 5)) = true ∧
    ∀ reg p, reg ∈ pivot1Index create_sample_data →
      p ∈ pivot1Columns create_sample_data →
      create_sample_data.filter (fun r => r.region == reg && r.product == p) = [] →
      pivot1Cell create_sample_data reg p = 0 := by
  refine ⟨by decide, by decide, by decide, by decide, ?_⟩
  intro reg p _ _ h
  unfold pivot1Cell
  rw [h]
  rfl

/-- Witness for C2 at the absent combination North, Product B. -/
theorem viewA_shape_c2_witness :
    ("North" ∈ pivot1Index create_sample_data ∧
     "Product B" ∈ pivot1Columns create_sample_data ∧
     create_sample_data.filter
       (fun r => r.region == "North" && r.product == "Product B") = []) ∧
    pivot1Cell create_sample_data "North" "Product B" = 0 :=
  ⟨⟨by decide, by decide, by decide⟩,
   viewA_shape_c2.2.2.2.2 "North" "Product B" (by decide) (by decide) (by decide)⟩

/-- C3: on the sample dataset View B has exactly 4 row categories, three
aggregation columns (sum, mean, count) per product, and the count column
sums to 100, the total row count of the record set. -/
theorem viewB_shape_c3 :
    (pivot2Index create_sample_data).length = 4 ∧
    pivot2Aggs = [Agg.sum, Agg.mean, Agg.cnt] ∧
    pivot2Aggs.length = 3 ∧
    ((pivot2Sheet create_sample_data).drop 3).length = 4 ∧
    (((pivot2Sheet create_sample_data).drop 3).all (fun r => r.length == 4)) = true ∧
    ((pivot2Index create_sample_data).map
      (fun p => pivot2CountQ create_sample_data p)).sum = 100 ∧
    create_sample_data.length = 100 := by
  refine ⟨by decide, by decide, by decide, by decide, by decide, by decide, by decide⟩

/-- C4 counterexample: the win32com second pivot table adds only two data
fields, sum and mean of Quantity, so it does not carry the three
aggregation columns (sum, mean, count) of the other two variants. -/
theorem productstats_missing_count_c4_counterexample :
    productStatsAggs ≠ pivot2Aggs ∧
    Agg.cnt ∉ productStatsAggs ∧
    productStatsDataFields.length = 2 := by
  refine ⟨by decide, by decide, by decide⟩

/-- C4 amended: the win32com second pivot table carries exactly the sum and
mean aggregations of Quantity grouped by Product, with no count column,
and on the sample dataset those two agree with the corresponding View B
columns of the other variants for every product. -/
theorem productstats_aggs_agree_c4 :
    productStatsAggs = [Agg.sum, Agg.mean] ∧
    ∀ p, p ∈ pivot2Index create_sample_data →
      excelSumOfQuantity create_sample_data p = pivot2SumQ create_sample_data p ∧
      excelAverageOfQuantity create_sample_data p = pivot2MeanQ create_sample_data p := by
  refine ⟨by decide, ?_⟩
  intro p _
  constructor
  · rfl
  · unfold excelAverageOfQuantity pivot2MeanQ pivot2CountQ pivot2SumQ
      excelSumOfQuantity groupQuantities
    rw [List.length_map]

/-- Witness for C4 amended at Product A. -/
theorem productstats_aggs_agree_c4_witness :
    "Product A" ∈ pivot2Index create_sample_data ∧
    (excelSumOfQuantity create_sample_data "Product A" =
       pivot2SumQ create_sample_data "Product A" ∧
     excelAverageOfQuantity create_sample_data "Product A" =
       pivot2MeanQ create_sample_data "Product A") :=
  ⟨by decide, productstats_aggs_agree_c4.2 "Product A" (by decide)⟩

/-- C5 counterexample: on the path where the first automation call raises
and the excel.Quit() call of the finally block also raises, the temporary
data file is not removed, although the run does end by raising. -/
theorem automation_cleanup_c5_counterexample :
    (runAutomationPhase (some 0) true).tempExists = true ∧
    Ev.tempFileRemoved ∉ (runAutomationPhase (some 0) true).events ∧
    (runAutomationPhase (some 0) true).raised = true := by
  refine ⟨by decide, by decide, by decide⟩

/-- C5 amended: on every path through the automation phase on which the
excel.Quit() call of the cleanup step does not itself raise, the temporary
data file is removed in the cleanup step; and when an automation call of
the try block raises, the failure is logged to the console and the
exception leaves the function only after the quit and the temp-file
removal have run. -/
theorem automation_cleanup_c5 (failAt : Option Nat) :
    (runAutomationPhase failAt false).tempExists = false ∧
    Ev.tempFileRemoved ∈ (runAutomationPhase failAt false).events ∧
    ∀ k, failAt = some k → k < automationSteps.length →
      Ev.log automationErrorMsg ∈ (runAutomationPhase failAt false).events ∧
      ∃ front, (runAutomationPhase failAt false).events =
        front ++ [Ev.quit, Ev.tempFileRemoved, Ev.propagateError] := by
  refine ⟨?_, ?_, ?_⟩
  · cases failAt <;> rfl
  · cases failAt <;> simp [runAutomationPhase]
  · intro k hk hlt
    subst hk
    have ht : decide (k < automationSteps.length) = true := decide_eq_true hlt
    refine ⟨by simp [runAutomationPhase, ht], ?_⟩
    exact ⟨Ev.tempFileWritten ::
             ((automationSteps.take k).map Ev.step ++ [Ev.log automationErrorMsg]),
           by simp [runAutomationPhase, ht]⟩

/-- Witness for C5 amended on the path where the third automation call
raises and quit succeeds. -/
theorem automation_cleanup_c5_witness :
    (runAutomationPhase (some 2) false).tempExists = false ∧
    Ev.tempFileRemoved ∈ (runAutomationPhase (some 2) false).events ∧
    (Ev.log automationErrorMsg ∈ (runAutomationPhase (some 2) false).events ∧
     ∃ front, (runAutomationPhase (some 2) false).events =
       front ++ [Ev.quit, Ev.tempFileRemoved, Ev.propagateError]) :=
  ⟨(automation_cleanup_c5 (some 2)).1, (automation_cleanup_c5 (some 2)).2.1,
   (automation_cleanup_c5 (some 2)).2.2 2 rfl (by decide)⟩

/-- C6: when the availability flag is false, both win32com entry points
print the error message and return early, producing no output file and
raising no exception, on every parameterization of the run. -/
theorem availability_gate_c6 :
    ∀ failAt quitRaises,
      create_true_pivot_with_win32com false failAt quitRaises =
        GateOutcome.earlyReturn availabilityError ∧
      wroteOutput (create_true_pivot_with_win32com false failAt quitRaises) = false ∧
      raisedOut (create_true_pivot_with_win32com false failAt quitRaises) = false ∧
      add_pivot_to_existing_file false failAt quitRaises =
        GateOutcome.earlyReturn availabilityError ∧
      wroteOutput (add_pivot_to_existing_file false failAt quitRaises) = false ∧
      raisedOut (add_pivot_to_existing_file false failAt quitRaises) = false := by
  intro failAt quitRaises
  exact ⟨rfl, rfl, rfl, rfl, rfl, rfl⟩

/-- C7: writing the sample record set to the Raw Data sheet with either
the xlsxwriter or the openpyxl writer and re-reading it reproduces the
record set exactly, field for field. -/
theorem raw_data_roundtrip_c7 :
    readRawData (rawDataSheetXlsx create_sample_data) = some create_sample_data ∧
    readRawData (rawDataSheetOpenpyxl create_sample_data) = some create_sample_data := by
  constructor <;> decide

/-- C8: the sample-data generator returns exactly 100 rows; row i carries
the region and product at position i mod 4 of the fixed 4-value lists, the
sales and quantity at position i mod 8 of the fixed 8-value cycles, and
the date i days after the fixed start date.  The generator takes no input
and is a pure function of no arguments, so two calls agree. -/
theorem sample_data_shape_c8 :
    create_sample_data.length = 100 ∧
    ∀ i, i < 100 →
      create_sample_data.getD i default =
        ⟨sampleStartDate + i,
         regionCycle.getD (i % 4) "",
         productCycle.getD (i % 4) "",
         salesCycle.getD (i % 8) 0,
         quantityCycle.getD (i % 8) 0⟩ := by
  constructor
  · decide
  · decide

/-- Witness for C8 at row 5. -/
theorem sample_data_shape_c8_witness :
    5 < 100 ∧
    create_sample_data.getD 5 default =
      ⟨sampleStartDate + 5,
       regionCycle.getD (5 % 4) "",
       productCycle.getD (5 % 4) "",
       salesCycle.getD (5 % 8) 0,
       quantityCycle.getD (5 % 8) 0⟩ :=
  ⟨by decide, sample_data_shape_c8.2 5 (by decide)⟩

/-- C9: on the sample dataset the View A chart ranges of approach 1 cover
exactly the row labels and, for every product column, exactly the data
cells of that column (View A has a single header row).  The View B chart
ranges also start one row below the sheet top, but the View B sheet has
two column-level header rows plus the index-name row pandas adds for a
multi-level column index, so each View B range takes in a header and a
blank cell and drops the last two data rows: they do not cover the row
labels and data cells of the view. -/
theorem chart_ranges_misaligned_c9 :
    rangeColumnCells (pivot1Sheet create_sample_data)
        (chart1CategoriesRange (pivot1Index create_sample_data).length) =
      viewARowLabelCells create_sample_data ∧
    (List.range (pivot1Columns create_sample_data).length).map
        (fun c => rangeColumnCells (pivot1Sheet create_sample_data)
          (chart1ValuesRange (pivot1Index create_sample_data).length c)) =
      (pivot1Columns create_sample_data).map
        (fun p => viewAColumnDataCells create_sample_data p) ∧
    rangeColumnCells (pivot2Sheet create_sample_data)
        (chart2CategoriesRange (pivot2Index create_sample_data).length) =
      [Cell.blank, Cell.s "Product", Cell.s "Product A", Cell.s "Product B"] ∧
    rangeColumnCells (pivot2Sheet create_sample_data)
        (chart2CategoriesRange (pivot2Index create_sample_data).length) ≠
      viewBRowLabelCells create_sample_data ∧
    rangeColumnCells (pivot2Sheet create_sample_data)
        (chart2ValuesRange (pivot2Index create_sample_data).length) =
      [Cell.s "Quantity", Cell.blank, Cell.i 274, Cell.i 387] ∧
    rangeColumnCells (pivot2Sheet create_sample_data)
        (chart2ValuesRange (pivot2Index create_sample_data).length) ≠
      viewBSumDataCells create_sample_data := by
  refine ⟨by decide, by decide, by decide, by decide, by decide, by decide⟩

/-- C10: the two 4-value cycles run in lockstep, so every record pairs the
region at its position with the product at the same position; hence View A
has exactly 4 nonzero cells on the sample dataset and the other 12 of its
16 cells are the fill value 0. -/
theorem lockstep_viewA_c10 :
    (∀ r, r ∈ create_sample_data → (r.region, r.product) ∈ lockstepPairs) ∧
    pivot1Grid create_sample_data =
      [[0, 0, 5120, 0], [2740, 0, 0, 0], [0, 4110, 0, 0], [0, 0, 0, 4555]] ∧
    ((pivot1Grid create_sample_data).flatten.filter (fun v => v != 0)).length = 4 ∧
    ((pivot1Grid create_sample_data).flatten.filter (fun v => v == 0)).length = 12 := by
  refine ⟨by decide, by decide, by decide, by decide⟩

/-- Witness for C10 at the first record. -/
theorem lockstep_viewA_c10_witness :
    create_sample_data.getD 0 default ∈ create_sample_data ∧
    ((create_sample_data.getD 0 default).region,
     (create_sample_data.getD 0 default).product) ∈ lockstepPairs :=
  ⟨by decide, lockstep_viewA_c10.1 (create_sample_data.getD 0 default) (by decide)⟩
